import Mathlib

/-!
Verification of the batch translation orchestration subsystem of an
Excel-translation tool (Python sources under src/). The Python code is
shallowly embedded: pure functions become Lean functions, the mutable
BatchProcessor state is passed explicitly, machine floats that only ever
hold small decimal fractions are modelled as rationals, fallible calls
return Except, and ambient effects (wall clock readings, the generated
request id, the external translation provider, the file system stat and
the regex engine of the Python standard library) are parameters.
-/

/- ===== Python string primitives used by the content filter ===== -/

/-- Whitespace as Python str.strip and the regex class backslash-s treat it
(the ASCII part, which is all the repository ever feeds it). -/
def pyIsSpace (c : Char) : Bool :=
  c == ' ' || c == '\t' || c == '\n' || c == '\r' || c == '\x0b' || c == '\x0c'

/-- Python text.strip(): drop leading and trailing whitespace. -/
def pyStrip (cs : List Char) : List Char :=
  ((cs.dropWhile pyIsSpace).reverse.dropWhile pyIsSpace).reverse

/-- Python truthiness of a string: empty is falsy. -/
def pyTruthyStr (s : String) : Bool := !(s.toList.isEmpty)

/-- Python truthiness of an Optional string: None and the empty string are falsy. -/
def pyTruthyOptStr : Option String → Bool
  | none => false
  | some s => pyTruthyStr s

/- ===== The regex fragments of the content filter, by their search semantics =====

The patterns are fixed literals in the source; each is embedded as the
predicate "a match exists in the text", which is what truthiness of
re.search gives the surrounding code. -/

/-- Scanning right from just after a candidate opening character: does the
closing character occur before any newline? This is exactly when the regex
open-dot-star-close (dot does not match newline) completes a match started at
that opening character. -/
def closesBeforeNewline (cl : Char) : List Char → Bool
  | [] => false
  | c :: rest => if c == cl then true else if c == '\n' then false else closesBeforeNewline cl rest

/-- Search semantics of the bracket-span regexes (open, any non-newline
characters, close): some occurrence of the opening character is followed,
with no intervening newline, by the closing character. -/
def spanSearch (op cl : Char) : List Char → Bool
  | [] => false
  | c :: rest => (c == op && closesBeforeNewline cl rest) || spanSearch op cl rest

/-- One starting position of the URL regex: http, an optional s, colon and two
slashes, then at least one non-whitespace character. -/
def urlAt : List Char → Bool
  | 'h' :: 't' :: 't' :: 'p' :: rest =>
      (match rest with
       | 's' :: ':' :: '/' :: '/' :: c :: _ => !pyIsSpace c
       | ':' :: '/' :: '/' :: c :: _ => !pyIsSpace c
       | _ => false)
  | _ => false

/-- Search semantics of the URL regex: a match starts at some position. -/
def urlSearch : List Char → Bool
  | [] => false
  | c :: rest => urlAt (c :: rest) || urlSearch rest

/-- The local-part character class of the email regex: letters, digits, dot,
underscore, percent, plus, minus. -/
def isLocalChar (c : Char) : Bool :=
  c.isAlpha || c.isDigit || c == '.' || c == '_' || c == '%' || c == '+' || c == '-'

/-- The domain character class of the email regex: letters, digits, dot, minus. -/
def isDomChar (c : Char) : Bool :=
  c.isAlpha || c.isDigit || c == '.' || c == '-'

/-- The top-level-domain class of the email regex, which is written with a
literal bar inside the brackets: letters and the bar character. -/
def isTldChar (c : Char) : Bool :=
  c.isAlpha || c == '|'

/-- A regex word character (backslash-w over the inputs this repository sees). -/
def isWordChar (c : Char) : Bool :=
  c.isAlpha || c.isDigit || c == '_'

/-- The character at an index, with a space (a non-word, non-class character)
standing for out of range. -/
def charAtD (cs : List Char) (i : Nat) : Char := cs.getD i ' '

/-- Whether index i holds a word character (out of range counts as not). -/
def wordAt (cs : List Char) (i : Nat) : Bool :=
  i < cs.length && isWordChar (charAtD cs i)

/-- The regex word boundary at position i, between character i-1 and character i. -/
def boundaryAt (cs : List Char) (i : Nat) : Bool :=
  (if i == 0 then false else wordAt cs (i - 1)) != wordAt cs i

/-- Search semantics of the email regex: boundary, one or more local-part
characters, the at sign, one or more domain characters, a dot, two or more
top-level-domain characters, boundary. The existential over starting
positions and over how much each plus and the final repetition consume is
spelled out; the at-sign test leads so that texts without one are dismissed
with a linear scan. -/
def emailSearch (cs : List Char) : Bool :=
  let n := cs.length
  (List.range n).any fun a =>
    charAtD cs a == '@' &&
    ((List.range a).any fun s =>
      boundaryAt cs s &&
      ((List.range (a - s)).all fun k => isLocalChar (charAtD cs (s + k))) &&
      ((List.range n).any fun p =>
        decide (a + 1 < p) && decide (p < n) && charAtD cs p == '.' &&
        ((List.range (p - a - 1)).all fun k => isDomChar (charAtD cs (a + 1 + k))) &&
        ((List.range (n - p)).any fun t =>
          decide (2 ≤ t) &&
          ((List.range t).all fun k => isTldChar (charAtD cs (p + 1 + k))) &&
          boundaryAt cs (p + 1 + t))))

/-- The numbers-only character class: digits, whitespace, dot, comma, minus,
plus, parentheses, percent and the four currency signs. -/
def isNumbersOnlyChar (c : Char) : Bool :=
  c.isDigit || pyIsSpace c || c == '.' || c == ',' || c == '-' || c == '+' ||
  c == '(' || c == ')' || c == '%' || c == '$' || c == '€' || c == '¥' || c == '£'

/-- Truthiness of re.match of the anchored numbers-only pattern against the
stripped text: the stripped text is nonempty and every character is in the
class (stripping leaves no trailing newline, so the end anchor is the end). -/
def numbersOnlyMatch (cs : List Char) : Bool :=
  let t := pyStrip cs
  !t.isEmpty && t.all isNumbersOnlyChar

/- ===== Data model (src/application/dto) ===== -/

/-- A custom skip pattern together with the standard regex engine it is handed
to. The engine (Python stdlib re) is outside the repository, so a pattern is
modelled by its observable behaviour at re.search: either compiling it raises
re.error, or it is the predicate telling whether some match exists in a text. -/
inductive CustomPattern where
  | invalid
  | matcher (matchesIn : List Char → Bool)

/-- ContentFilters (translation_request.py), defaults as in the dataclass. -/
structure ContentFilters where
  ignore_square_brackets : Bool := true
  ignore_japanese_quotes : Bool := true
  ignore_urls : Bool := true
  ignore_emails : Bool := true
  ignore_numbers_only : Bool := true
  custom_patterns : List CustomPattern := []

/-- LanguageSettings (translation_request.py). -/
structure LanguageSettings where
  source_language : Option String
  target_language : String
  auto_detect_source : Bool := false
  preserve_source_formatting : Bool := true
deriving DecidableEq

/-- BatchTranslationSettings (translation_request.py). The integer fields are
naturals; the one reachable out-of-contract value, a batch size of zero, is
kept because the code paths below give it a meaning (a ValueError). -/
structure BatchTranslationSettings where
  batch_size : Nat := 50
  max_concurrent_requests : Nat := 5
  retry_attempts : Nat := 3
  retry_delay : ℚ := 1
  ignore_empty_cells : Bool := true
  ignore_formula_cells : Bool := true
deriving DecidableEq

/-- CellTranslationRequest (translation_request.py). The dataclass has no
metadata field; ProcessFileUseCase attaches one dynamically carrying the sheet
name, and TranslateTextUseCase reads it through hasattr. The optional field
models attribute present or absent. -/
structure CellTranslationRequest where
  text : String
  row : Nat
  column : Nat
  preserve_formatting : Bool := true
  metadata_sheet_name : Option String := none
deriving DecidableEq

/-- TranslationRequest (translation_request.py), the fields the use cases read. -/
structure TranslationRequest where
  file_path : String
  sheet_names : List String
  language_settings : LanguageSettings
  batch_settings : BatchTranslationSettings
  content_filters : ContentFilters
  cells : List CellTranslationRequest

/-- TranslationRequest.get_total_characters: sum of the cell text lengths. -/
def get_total_characters (request : TranslationRequest) : Nat :=
  (request.cells.map (fun cell => cell.text.length)).sum

/-- TranslationStatus (translation_response.py). -/
inductive TranslationStatus where
  | success
  | partial_success
  | failed
  | cancelled
deriving DecidableEq

/-- CellTranslationResult (translation_response.py). In the code paths below
translated_text is always a string, never None, matching the source where the
field is typed str and every constructor site passes one. -/
structure CellTranslationResult where
  original_text : String
  translated_text : String
  row : Nat
  column : Nat
  source_language_detected : Option String
  confidence_score : Option ℚ
  processing_time : ℚ
  error_message : Option String := none
deriving DecidableEq

/-- CellTranslationResult.is_successful: the error message is None and the
translated text is not None. The second conjunct is always true here because
translated_text is a string in every result the use case builds. -/
def CellTranslationResult.is_successful (r : CellTranslationResult) : Bool :=
  r.error_message.isNone

/-- SheetTranslationResult (translation_response.py). -/
structure SheetTranslationResult where
  sheet_name : String
  total_cells : Nat
  successful_translations : Nat
  failed_translations : Nat
  skipped_cells : Nat
  cell_results : List CellTranslationResult
  processing_time : ℚ
  error_message : Option String := none
deriving DecidableEq

/-- TranslationMetrics (translation_response.py). -/
structure TranslationMetrics where
  total_files : Nat
  total_sheets : Nat
  total_cells : Nat
  total_characters : Nat
  successful_translations : Nat
  failed_translations : Nat
  skipped_cells : Nat
  api_calls_made : Nat
  total_processing_time : ℚ
  average_time_per_cell : ℚ
  characters_per_second : ℚ
deriving DecidableEq

/-- TranslationResponse (translation_response.py), the fields execute fills.
The two datetimes are rationals (seconds on the ambient clock). -/
structure TranslationResponse where
  request_id : String
  status : TranslationStatus
  file_path : String
  output_file_path : Option String
  sheet_results : List SheetTranslationResult
  metrics : TranslationMetrics
  errors : List String
  warnings : List String
  started_at : ℚ
  completed_at : ℚ

/- ===== Content filter entry points ===== -/

/-- TranslateTextUseCase._should_skip_text (translate_text_usecase.py lines
254-288): empty or all-whitespace text, then the five toggled checks, each
with its regex search. Note the function never reads custom_patterns. -/
def should_skip_text (text : String) (content_filters : ContentFilters) : Bool :=
  let cs := text.toList
  if cs.isEmpty || (pyStrip cs).isEmpty then true
  else if content_filters.ignore_square_brackets && cs.contains '[' && cs.contains ']'
      && spanSearch '[' ']' cs then true
  else if content_filters.ignore_japanese_quotes && cs.contains '「' && cs.contains '」'
      && spanSearch '「' '」' cs then true
  else if content_filters.ignore_urls && urlSearch cs then true
  else if content_filters.ignore_emails && emailSearch cs then true
  else if content_filters.ignore_numbers_only && numbersOnlyMatch cs then true
  else false

/-- TranslationRequest.should_ignore_text (translation_request.py lines
105-146): same toggles, but the bracket and quote checks are mere containment
(no span regex), and the custom patterns are tried last, a pattern that fails
to compile being skipped as non-matching. -/
def should_ignore_text (content_filters : ContentFilters) (text : String) : Bool :=
  let cs := text.toList
  if cs.isEmpty || (pyStrip cs).isEmpty then true
  else if content_filters.ignore_square_brackets && cs.contains '[' && cs.contains ']' then true
  else if content_filters.ignore_japanese_quotes && cs.contains '「' && cs.contains '」' then true
  else if content_filters.ignore_urls && urlSearch cs then true
  else if content_filters.ignore_emails && emailSearch cs then true
  else if content_filters.ignore_numbers_only && numbersOnlyMatch cs then true
  else content_filters.custom_patterns.any fun p =>
    match p with
    | .invalid => false
    | .matcher f => f cs

/- ===== TranslateTextUseCase (translate_text_usecase.py) ===== -/

/-- The injected translation service (an external provider adapter): a batch
of texts either comes back translated or the call raises, carrying the
exception text the orchestrator will read through str(e). -/
def TranslationService : Type := List String → Except String (List String)

/-- TranslateTextUseCase._translate_batch: walk the batch appending a
pass-through result for each filtered cell and collecting the rest, then one
service call for the collected texts; on success zip the translations back
(each result charged an equal share of the measured wall time), on exception
an error result per collected cell. elapsed is the wall-clock duration the
code measures around the service call. -/
def translate_batch (service : TranslationService) (elapsed : ℚ)
    (language_settings : LanguageSettings) (content_filters : ContentFilters)
    (batch : List CellTranslationRequest) : List CellTranslationResult :=
  let parts := batch.partition (fun cell => should_skip_text cell.text content_filters)
  let results : List CellTranslationResult := parts.1.map (fun cell =>
    { original_text := cell.text, translated_text := cell.text,
      row := cell.row, column := cell.column,
      source_language_detected := none, confidence_score := none,
      processing_time := 0 })
  let cell_mapping := parts.2
  let texts_to_translate := cell_mapping.map (fun cell => cell.text)
  if texts_to_translate.isEmpty then results
  else
    match service texts_to_translate with
    | .ok translated_texts =>
        results ++ (cell_mapping.zip translated_texts).map (fun ct =>
          { original_text := ct.1.text, translated_text := ct.2,
            row := ct.1.row, column := ct.1.column,
            source_language_detected := language_settings.source_language,
            confidence_score := some 1,
            processing_time := elapsed / (translated_texts.length : ℚ) })
    | .error e =>
        results ++ cell_mapping.map (fun cell =>
          { original_text := cell.text, translated_text := "",
            row := cell.row, column := cell.column,
            source_language_detected := none, confidence_score := none,
            processing_time := 0, error_message := some e })

/-- Consecutive slices of size b, as range(0, len(xs), b) with b positive
cuts them; empty input or a zero b yields no chunks (the zero case is only
reached behind guards that model the ValueError range raises). -/
def chunksOfAux (b : Nat) : Nat → List α → List (List α)
  | _, [] => []
  | 0, _ :: _ => []
  | fuel + 1, x :: rest => (x :: rest).take b :: chunksOfAux b fuel ((x :: rest).drop b)

/-- Consecutive slices of size b, as range(0, len(xs), b) with b positive
cuts them; empty input or a zero b yields no chunks (the zero case is only
reached behind guards that model the ValueError range raises). The recursion
is driven by a fuel of len(xs), enough since a positive b drops at least one
element per step. -/
def chunksOf (b : Nat) (xs : List α) : List (List α) :=
  if b = 0 then [] else chunksOfAux b xs.length xs

/-- The counting step of _translate_sheet: successful when is_successful,
failed when the error message is truthy, otherwise skipped. -/
def count_result (acc : Nat × Nat × Nat) (r : CellTranslationResult) : Nat × Nat × Nat :=
  if r.is_successful then (acc.1 + 1, acc.2.1, acc.2.2)
  else if pyTruthyOptStr r.error_message then (acc.1, acc.2.1 + 1, acc.2.2)
  else (acc.1, acc.2.1, acc.2.2 + 1)

/-- TranslateTextUseCase._translate_sheet (lines 138-179): slice the cells by
batch size, translate each slice, count each result as successful, failed or
skipped. A zero batch size makes range() raise ValueError before any chunk
runs; the except branch then reports failed = len(cells) while leaving the
accumulated results (none) and the other counters (zero) as they stand.
sheet_time is the wall-clock duration measured around the sheet. -/
def translate_sheet (service : TranslationService) (elapsed sheet_time : ℚ)
    (sheet_name : String) (cells : List CellTranslationRequest)
    (language_settings : LanguageSettings) (batch_settings : BatchTranslationSettings)
    (content_filters : ContentFilters) : SheetTranslationResult :=
  if batch_settings.batch_size = 0 then
    { sheet_name := sheet_name, total_cells := cells.length,
      successful_translations := 0, failed_translations := cells.length,
      skipped_cells := 0, cell_results := [], processing_time := sheet_time }
  else
    let results := (chunksOf batch_settings.batch_size cells).map
      (translate_batch service elapsed language_settings content_filters)
    let all_results := results.flatten
    let counts := all_results.foldl count_result (0, 0, 0)
    { sheet_name := sheet_name, total_cells := cells.length,
      successful_translations := counts.1, failed_translations := counts.2.1,
      skipped_cells := counts.2.2, cell_results := all_results,
      processing_time := sheet_time }

/-- Insertion step of _group_cells_by_sheet: append the cell to its sheet
bucket, creating the bucket at the end on first sight (Python dicts keep
insertion order). -/
def insert_cell : List (String × List CellTranslationRequest) → String →
    CellTranslationRequest → List (String × List CellTranslationRequest)
  | [], name, c => [(name, [c])]
  | (k, v) :: rest, name, c =>
      if k = name then (k, v ++ [c]) :: rest else (k, v) :: insert_cell rest name c

/-- TranslateTextUseCase._group_cells_by_sheet (lines 128-136): bucket the
cells by the sheet name in their dynamically attached metadata, with Sheet1
for cells that have none. -/
def group_cells_by_sheet (cells : List CellTranslationRequest) :
    List (String × List CellTranslationRequest) :=
  cells.foldl (fun sheets cell =>
    insert_cell sheets (cell.metadata_sheet_name.getD "Sheet1") cell) []

/-- The status decision of execute (lines 81-87): SUCCESS when no failure and
some success, else PARTIAL_SUCCESS when some success, else FAILED. -/
def derive_status (total_failed total_successful : Nat) : TranslationStatus :=
  if total_failed = 0 ∧ 0 < total_successful then .success
  else if 0 < total_successful then .partial_success
  else .failed

/-- The zeroed metrics of the top-level exception handler of execute. -/
def zero_metrics : TranslationMetrics :=
  { total_files := 1, total_sheets := 0, total_cells := 0, total_characters := 0,
    successful_translations := 0, failed_translations := 0, skipped_cells := 0,
    api_calls_made := 0, total_processing_time := 0, average_time_per_cell := 0,
    characters_per_second := 0 }

/-- TranslateTextUseCase.execute (lines 28-126). Ambient inputs are
parameters: the generated request id and the clock readings at start and end
(elapsed and sheet_time feed the per-call and per-sheet timers inside).
With a zero batch size and at least one sheet, the api-call estimate
len(cells) // batch_size raises ZeroDivisionError on the first sheet; the
top-level handler turns that into the FAILED response with empty sheet
results and zeroed metrics. -/
def execute (service : TranslationService) (request_id : String)
    (start_time end_time elapsed sheet_time : ℚ)
    (request : TranslationRequest) : TranslationResponse :=
  let sheets_data := group_cells_by_sheet request.cells
  if request.batch_settings.batch_size = 0 ∧ sheets_data ≠ [] then
    { request_id := request_id, status := .failed, file_path := request.file_path,
      output_file_path := none, sheet_results := [], metrics := zero_metrics,
      errors := [], warnings := [], started_at := start_time, completed_at := end_time }
  else
    let sheet_results := sheets_data.map (fun sheet =>
      translate_sheet service elapsed sheet_time sheet.1 sheet.2
        request.language_settings request.batch_settings request.content_filters)
    let total_successful := (sheet_results.map (fun s => s.successful_translations)).sum
    let total_failed := (sheet_results.map (fun s => s.failed_translations)).sum
    let total_skipped := (sheet_results.map (fun s => s.skipped_cells)).sum
    let total_api_calls := (sheets_data.map (fun sheet =>
      sheet.2.length / request.batch_settings.batch_size + 1)).sum
    let total_processing_time := end_time - start_time
    let total_cells := request.cells.length
    let total_characters := get_total_characters request
    let metrics : TranslationMetrics :=
      { total_files := 1, total_sheets := sheets_data.length,
        total_cells := total_cells, total_characters := total_characters,
        successful_translations := total_successful,
        failed_translations := total_failed, skipped_cells := total_skipped,
        api_calls_made := total_api_calls,
        total_processing_time := total_processing_time,
        average_time_per_cell := total_processing_time / (max total_cells 1 : ℚ),
        characters_per_second := (total_characters : ℚ) / max total_processing_time (1/10) }
    { request_id := request_id, status := derive_status total_failed total_successful,
      file_path := request.file_path, output_file_path := none,
      sheet_results := sheet_results, metrics := metrics,
      errors := [], warnings := [], started_at := start_time, completed_at := end_time }

/- ===== BatchProcessor (src/translator/batch_processor.py) ===== -/

/-- Does the needle occur as a contiguous run at the head of the haystack? -/
def headRun : List Char → List Char → Bool
  | [], _ => true
  | _ :: _, [] => false
  | a :: as, b :: bs => a == b && headRun as bs

/-- Does the needle occur contiguously anywhere in the haystack? -/
def hasRun (needle : List Char) : List Char → Bool
  | [] => needle.isEmpty
  | c :: rest => headRun needle (c :: rest) || hasRun needle rest

/-- Python needle in text.lower(): substring test on the lowercased text
(lowercasing done characterwise so the kernel can evaluate it). -/
def containsLowered (needle text : String) : Bool :=
  hasRun needle.toList (text.toList.map Char.toLower)

/-- What one run of _translate_batch_with_retries did besides its return
value: how many provider calls it made, the exponential backoff sleeps it
took between attempts, and the extra rate-limit pauses. -/
structure RetryTrace where
  calls : Nat
  backoff_sleeps : List ℚ
  rate_limit_waits : List ℚ
deriving DecidableEq

/-- The retry loop of _translate_batch_with_retries (lines 94-112), with the
iteration count made structural: remaining is how many attempts the range
still holds, attempt the index of the next one. The provider is indexed by
attempt so a run may fail some attempts and serve others. Before each
attempt the cancel flag is read (modelled constant across one call, the
boundary-interleaving of Section 5 of the spec); a set flag returns the
original texts without calling the provider. A failed attempt that is not
the last sleeps 2 to the power attempt seconds, plus a 5 second pause when
the error text contains the words rate limit. -/
def retries_go (client : Nat → Except String (List String)) (cancelled : Bool)
    (texts : List String) : Nat → Nat → RetryTrace → List String × RetryTrace
  | _, 0, trace => (texts, trace)
  | attempt, remaining + 1, trace =>
    if cancelled then (texts, trace)
    else
      match client attempt with
      | .ok res => (res, { trace with calls := trace.calls + 1 })
      | .error e =>
          let traceA := { trace with calls := trace.calls + 1 }
          let traceB :=
            if 0 < remaining then
              let t := { traceA with
                backoff_sleeps := traceA.backoff_sleeps ++ [(2 : ℚ) ^ attempt] }
              if containsLowered "rate limit" e then
                { t with rate_limit_waits := t.rate_limit_waits ++ [5] }
              else t
            else traceA
          retries_go client cancelled texts (attempt + 1) remaining traceB

/-- BatchProcessor._translate_batch_with_retries (lines 78-116): run up to
max_retries attempts; when every attempt failed (or none ran), return the
original texts unchanged. Never raises: every outcome is a return value. -/
def translate_batch_with_retries (client : Nat → Except String (List String))
    (max_retries : Nat) (cancelled : Bool) (texts : List String) :
    List String × RetryTrace :=
  retries_go client cancelled texts 0 max_retries { calls := 0, backoff_sleeps := [], rate_limit_waits := [] }

/-- The provider behind process_texts, indexed by slice and attempt. -/
def BatchClient : Type := Nat → Nat → List String → Except String (List String)

/-- What one run of process_texts did besides its output: the batch_start
index of every slice that began, and the progress callback invocations. -/
structure ProcessTrace where
  started_slices : List Nat
  progress_calls : List (Nat × Nat)
deriving DecidableEq

/-- translated_texts[start + i] = results[i] for each i: the store loop of
process_texts (lines 63-64). A write beyond the end of the list is dropped
here; in Python it would raise IndexError, which no run within the provider
length contract (same list length out as in) ever reaches. -/
def writeSeq : List String → Nat → List String → List String
  | out, _, [] => out
  | out, s, v :: vs => writeSeq (out.set s v) (s + 1) vs

/-- The slice loop of process_texts (lines 50-74): before each slice the
cancel flag is read (cancel_flag k is its value at the check before slice k;
a flag set by cancel() stays set, making the oracle monotone in any real
run); a set flag breaks out, leaving the untouched output slots at their
initial empty string. Each processed slice goes through the retry wrapper,
is stored at its batch_start, and reports cumulative progress. -/
def process_texts_go (client : BatchClient) (max_retries : Nat)
    (cancel_flag : Nat → Bool) (total : Nat) (b : Nat) :
    List (List String) → Nat → Nat → List String → ProcessTrace →
    List String × ProcessTrace
  | [], _, _, out, trace => (out, trace)
  | chunk :: rest, k, start, out, trace =>
    if cancel_flag k then (out, trace)
    else
      let res := (translate_batch_with_retries (fun a => client k a chunk)
        max_retries false chunk).1
      let out2 := writeSeq out start res
      let trace2 : ProcessTrace :=
        { started_slices := trace.started_slices ++ [start],
          progress_calls := trace.progress_calls ++ [(start + chunk.length, total)] }
      process_texts_go client max_retries cancel_flag total b rest (k + 1) (start + b) out2 trace2

/-- BatchProcessor.process_texts (lines 25-76). Empty input returns the empty
list at once; a zero batch size makes range() raise ValueError (nothing
catches it there), modelled as the error case. Otherwise the output array
starts as empty strings and the slices run under the cancellation oracle.
The method also resets the cancel flag on entry, so cancel_flag speaks only
about cancellations arriving after this run began. -/
def process_texts (client : BatchClient) (max_retries : Nat)
    (cancel_flag : Nat → Bool) (texts : List String) (b : Nat) :
    Except String (List String × ProcessTrace) :=
  if texts.isEmpty then .ok ([], { started_slices := [], progress_calls := [] })
  else if b = 0 then .error "ValueError: range() arg 3 must not be zero"
  else .ok (process_texts_go client max_retries cancel_flag texts.length b
    (chunksOf b texts) 0 0 (List.replicate texts.length "")
    { started_slices := [], progress_calls := [] })

/-- The batch-size heuristic. Each factor is a one-decimal float in the
source, carried here scaled by ten, so the product of the base and the three
factors is the exact integer numerator over 1000 and int() of the float
product is its Nat division by 1000: on each of the 36 reachable factor
combinations the binary float product rounds to the same integer as the
exact value, so the scaled arithmetic is the float arithmetic. int()
truncates toward zero, which on these positive values is the floor. Note the
length and size tables only apply to strictly positive inputs; a zero (or
negative) average length or file size keeps the neutral factor 1. -/
def calculate_optimal_batch_size (total_texts : Nat) (avg_text_length file_size_mb : ℚ) : Nat :=
  let base_batch_size : Nat := 50
  let text_factor10 : Nat :=
    if total_texts < 100 then 6
    else if total_texts < 500 then 10
    else if total_texts < 1000 then 15
    else 20
  let length_factor10 : Nat :=
    if 0 < avg_text_length then
      if avg_text_length < 50 then 12
      else if avg_text_length < 200 then 10
      else 7
    else 10
  let size_factor10 : Nat :=
    if 0 < file_size_mb then
      if file_size_mb < 1 then 8
      else if file_size_mb < 5 then 10
      else 13
    else 10
  let optimal_size : Nat :=
    base_batch_size * text_factor10 * length_factor10 * size_factor10 / 1000
  max 10 (min optimal_size 200)

/-- ValidationSeverity (validation_interface.py). -/
inductive ValidationSeverity where
  | info
  | warning
  | error
  | critical
deriving DecidableEq

/-- ValidationResult (validation_interface.py), the fields the checks set. -/
structure ValidationResult where
  is_valid : Bool
  severity : ValidationSeverity
  message : String
  code : String
deriving DecidableEq

/-- ValidationReport (validation_interface.py): an append-only list of results. -/
structure ValidationReport where
  results : List ValidationResult
deriving DecidableEq

/-- ValidationReport.add_error: appends an invalid ERROR result. -/
def ValidationReport.add_error (r : ValidationReport) (message code : String) : ValidationReport :=
  { results := r.results ++ [{ is_valid := false, severity := .error, message := message, code := code }] }

/-- ValidationReport.add_warning: appends a valid WARNING result. -/
def ValidationReport.add_warning (r : ValidationReport) (message code : String) : ValidationReport :=
  { results := r.results ++ [{ is_valid := true, severity := .warning, message := message, code := code }] }

/-- ValidationReport.is_valid: all results valid. -/
def ValidationReport.is_valid (r : ValidationReport) : Bool :=
  r.results.all (fun v => v.is_valid)

/-- Whether some result of the report carries the given code. -/
def ValidationReport.has_code (r : ValidationReport) (code : String) : Bool :=
  r.results.any (fun v => v.code == code)

/-- What Path.exists, Path.is_file, Path.suffix and Path.stat report for the
request's file: the file system is outside the core, so the stat is an input. -/
structure FileStat where
  path_exists : Bool
  is_file : Bool
  suffix : String
  size_bytes : Nat
  mode_readable : Bool
deriving DecidableEq

/-- _validate_file, with the file system answers passed in. Existence and
file-ness short-circuit with their errors; then the extension check against
xlsx, xlsm, xls; then the size ladder exactly as written in the source: the
over-100MB warning is tested first and the over-500MB error sits in its elif,
where no size can reach it; finally the read-permission bit. -/
def validate_file (st : FileStat) (report : ValidationReport) : ValidationReport :=
  if !st.path_exists then
    report.add_error "File does not exist" "FILE_NOT_FOUND"
  else if !st.is_file then
    report.add_error "Path is not a file" "NOT_A_FILE"
  else
    let supported := [".xlsx", ".xlsm", ".xls"]
    let suffix_lower := String.mk (st.suffix.toList.map Char.toLower)
    let report :=
      if !(supported.contains suffix_lower) then
        report.add_error "Unsupported file format" "UNSUPPORTED_FORMAT"
      else report
    let file_size_mb : ℚ := mkRat st.size_bytes (1024 * 1024)
    let report :=
      if 100 < file_size_mb then
        report.add_warning "Large file detected. Processing may take longer." "LARGE_FILE"
      else if 500 < file_size_mb then
        report.add_error "File too large. Maximum supported size is 500 MB." "FILE_TOO_LARGE"
      else report
    if !st.mode_readable then
      report.add_error "No read permission for file" "NO_READ_PERMISSION"
    else report

/- ===== Scenario material shared by the theorems ===== -/

/-- Python text.upper(), characterwise, as the scenario provider applies it. -/
def pyUpper (s : String) : String := String.mk (s.toList.map Char.toUpper)

/-- The provider of the end-to-end scenario: echoes every text uppercased. -/
def echo_upper_service : TranslationService := fun texts => .ok (texts.map pyUpper)

/-- An English-to-Japanese language setting for the scenarios. -/
def english_japanese : LanguageSettings :=
  { source_language := some "en", target_language := "ja" }

/-- The four cell texts of scenario 1 of the spec. -/
def scenario_cells : List CellTranslationRequest :=
  [{ text := "Hello", row := 1, column := 1 },
   { text := "[skip this]", row := 2, column := 1 },
   { text := "", row := 3, column := 1 },
   { text := "2024-01-01", row := 4, column := 1 }]

/-- The sheet result of running the scenario through _translate_sheet with
default settings and default content filters. -/
def scenario_sheet : SheetTranslationResult :=
  translate_sheet echo_upper_service 0 0 "Sheet1" scenario_cells english_japanese {} {}

/-- C1: the skip and success attribution fails on the code. The default
filter does decide to skip three of the four scenario texts, and those three
come back as pass-through results, but is_successful only checks that the
error message is None and the translated text is not None, which holds of a
pass-through result too, so _translate_sheet counts every filtered cell as
successful: the scenario ends with successCount 4, skippedCount 0, not the
claimed successCount 1, skippedCount 3. -/
theorem C1_filtered_cells_are_counted_successful :
    should_skip_text "[skip this]" {} = true ∧
    should_skip_text "" {} = true ∧
    should_skip_text "2024-01-01" {} = true ∧
    should_skip_text "Hello" {} = false ∧
    scenario_sheet.cell_results.map (fun r => r.translated_text) =
      ["[skip this]", "", "2024-01-01", "HELLO"] ∧
    scenario_sheet.successful_translations = 4 ∧
    scenario_sheet.failed_translations = 0 ∧
    scenario_sheet.skipped_cells = 0 ∧
    ¬(scenario_sheet.skipped_cells = 3 ∧ scenario_sheet.successful_translations = 1) := by
  decide

/-- The one-cell sheet run with a zero batch size: range() raises ValueError,
which escapes the per-chunk handling into the except branch of
_translate_sheet. -/
def zero_batch_sheet : SheetTranslationResult :=
  translate_sheet echo_upper_service 0 0 "Sheet1"
    [{ text := "Hello", row := 1, column := 1 }] english_japanese { batch_size := 0 } {}

/-- C2: the sheet accounting invariant breaks when an exception escapes the
per-chunk handling. The except branch sets failed to len(cells) but neither
rebuilds cell_results nor clears the other counters, so the run returns
totalCells 1 with an empty cellResults list: the counters sum to totalCells
but totalCells no longer equals len(cellResults), refuting the invariant as
claimed. -/
theorem C2_invariant_fails_when_exception_escapes :
    zero_batch_sheet.total_cells = 1 ∧
    zero_batch_sheet.successful_translations + zero_batch_sheet.failed_translations +
      zero_batch_sheet.skipped_cells = 1 ∧
    zero_batch_sheet.cell_results.length = 0 ∧
    ¬(zero_batch_sheet.total_cells = zero_batch_sheet.cell_results.length) := by
  decide

/-- A 600 MB spreadsheet file that exists, is a regular readable file and has
a supported extension. -/
def oversized_file_stat : FileStat :=
  { path_exists := true, is_file := true, suffix := ".xlsx",
    size_bytes := 600 * 1024 * 1024, mode_readable := true }

/-- A 300 MB file, otherwise the same. -/
def large_file_stat : FileStat :=
  { path_exists := true, is_file := true, suffix := ".xlsx",
    size_bytes := 300 * 1024 * 1024, mode_readable := true }

/-- C6: the over-500MB error is unreachable. The source tests the 100 MB
warning first and keeps the 500 MB error in its elif, so a 600 MB file gets
only the LARGE_FILE warning, no FILE_TOO_LARGE error, and the report stays
valid — against the claim (and the spec rule) that over 500 MB is an error.
The 300 MB case agrees with the claim: warning only. -/
theorem C6_file_too_large_error_unreachable :
    (validate_file oversized_file_stat { results := [] }).has_code "FILE_TOO_LARGE" = false ∧
    (validate_file oversized_file_stat { results := [] }).has_code "LARGE_FILE" = true ∧
    (validate_file oversized_file_stat { results := [] }).is_valid = true ∧
    (validate_file large_file_stat { results := [] }).results.map (fun v => v.code) =
      ["LARGE_FILE"] ∧
    (validate_file large_file_stat { results := [] }).is_valid = true := by
  decide

/-- Content filters whose custom pattern list holds one pattern that matches
every text. -/
def match_all_filters : ContentFilters :=
  { custom_patterns := [.matcher (fun _ => true)] }

/-- Content filters whose custom pattern list holds one pattern that fails to
compile. -/
def invalid_pattern_filters : ContentFilters :=
  { custom_patterns := [.invalid] }

/-- C9: the translation path ignores custom patterns. The filter actually
used by TranslateTextUseCase, _should_skip_text, never reads
custom_patterns: the text hello is not skipped although a custom pattern
matches it. The request-level should_ignore_text does honour the pattern,
and there a pattern that fails to compile is skipped as non-matching rather
than raising. -/
theorem C9_translation_path_ignores_custom_patterns :
    should_skip_text "hello" match_all_filters = false ∧
    should_ignore_text match_all_filters "hello" = true ∧
    should_ignore_text invalid_pattern_filters "hello" = false := by
  decide

/-- The batch-size formula exactly as the claim words it: clamp of the floor
of 50 times the three factors, with the length factor 1.2 below 50
characters and the size factor 0.8 below 1 MB unconditionally, no positivity
guard. The factors are scaled by ten as in the embedding of the source. -/
def claimed_optimal_batch_size (total_texts : Nat) (avg_text_length file_size_mb : ℚ) : Nat :=
  let text_count_factor10 : Nat :=
    if total_texts < 100 then 6
    else if total_texts < 500 then 10
    else if total_texts < 1000 then 15
    else 20
  let length_factor10 : Nat :=
    if avg_text_length < 50 then 12
    else if avg_text_length < 200 then 10
    else 7
  let size_factor10 : Nat :=
    if file_size_mb < 1 then 8
    else if file_size_mb < 5 then 10
    else 13
  max 10 (min (50 * text_count_factor10 * length_factor10 * size_factor10 / 1000) 200)

/-- C8 counterexample: at totalTexts 0, avgTextLength 0, fileSizeMb 0 (all
non-negative) the code returns 30 — the zero average length and zero size
keep the neutral factor 1 — while the factor tables of the claim give
clamp(floor(50 × 0.6 × 1.2 × 0.8)) = 28. -/
theorem C8_counterexample_zero_inputs :
    calculate_optimal_batch_size 0 0 0 = 30 ∧
    claimed_optimal_batch_size 0 0 0 = 28 ∧
    (30 : Nat) ≠ 28 := by
  decide

/-- C8 as amended, for every input at once: the result always lies within
10 and 200; on strictly positive average length and file size the claimed
factor tables are exactly the code; and a non-positive average length (or
file size) is treated with the neutral factor 1.0, that is, exactly as an
input falling in the factor-1.0 band of its table (average length 100,
file size 2). -/
theorem C8_batch_size_heuristic_amended (total_texts : Nat) (avg_text_length file_size_mb : ℚ) :
    10 ≤ calculate_optimal_batch_size total_texts avg_text_length file_size_mb ∧
    calculate_optimal_batch_size total_texts avg_text_length file_size_mb ≤ 200 ∧
    (0 < avg_text_length → 0 < file_size_mb →
      calculate_optimal_batch_size total_texts avg_text_length file_size_mb =
        claimed_optimal_batch_size total_texts avg_text_length file_size_mb) ∧
    (¬ 0 < avg_text_length →
      calculate_optimal_batch_size total_texts avg_text_length file_size_mb =
        calculate_optimal_batch_size total_texts 100 file_size_mb) ∧
    (¬ 0 < file_size_mb →
      calculate_optimal_batch_size total_texts avg_text_length file_size_mb =
        calculate_optimal_batch_size total_texts avg_text_length 2) := by
  unfold calculate_optimal_batch_size claimed_optimal_batch_size
  refine ⟨?_, ?_, ?_, ?_, ?_⟩
  · exact Nat.le_max_left _ _
  · exact Nat.max_le.mpr ⟨by omega, Nat.min_le_right _ _⟩
  · intro ha hs
    rw [if_pos ha, if_pos hs]
  · intro ha
    rw [if_neg ha]
    norm_num
  · intro hs
    rw [if_neg hs]
    norm_num

/-- Ceiling division, as the claim words the api-call count. -/
def ceil_div (a b : Nat) : Nat := (a + b - 1) / b

/-- A request holding one translatable cell with batch size 1: one chunk, so
one provider call, and ceil(1/1) = 1, but the estimate in execute is
1 // 1 + 1 = 2. -/
def one_cell_request : TranslationRequest :=
  { file_path := "f.xlsx", sheet_names := [], language_settings := english_japanese,
    batch_settings := { batch_size := 1 }, content_filters := {},
    cells := [{ text := "Hello", row := 1, column := 1 }] }

/-- C7 counterexample: when the batch size divides the sheet cell count the
floor-plus-one estimate of the code exceeds the ceiling of the claim: one
cell at batch size 1 is reported as 2 api calls, not ceil(1/1) = 1. -/
theorem C7_counterexample_floor_plus_one :
    (execute echo_upper_service "rid" 0 1 0 0 one_cell_request).metrics.api_calls_made = 2 ∧
    ((group_cells_by_sheet one_cell_request.cells).map (fun sheet =>
      ceil_div sheet.2.length one_cell_request.batch_settings.batch_size)).sum = 1 ∧
    (2 : Nat) ≠ 1 := by
  decide

/-- C7 as amended: for every positive batch size, a non-exceptional run of
execute reports api_calls_made as the sum over the grouped sheets of
cellCount // batchSize + 1, which agrees with the claimed ceiling exactly
when the batch size does not divide the cell count. -/
theorem C7_api_calls_floor_plus_one (service : TranslationService) (request_id : String)
    (start_time end_time elapsed sheet_time : ℚ) (request : TranslationRequest)
    (hb : 0 < request.batch_settings.batch_size) :
    (execute service request_id start_time end_time elapsed sheet_time request).metrics.api_calls_made =
      ((group_cells_by_sheet request.cells).map (fun sheet =>
        sheet.2.length / request.batch_settings.batch_size + 1)).sum := by
  simp only [execute]
  rw [if_neg (fun h => absurd h.1 (Nat.pos_iff_ne_zero.mp hb))]

/-- C7 witness: the amended equation at the one-cell request. -/
theorem C7_api_calls_floor_plus_one_witness :
    (execute echo_upper_service "rid" 0 1 0 0 one_cell_request).metrics.api_calls_made =
      ((group_cells_by_sheet one_cell_request.cells).map (fun sheet =>
        sheet.2.length / one_cell_request.batch_settings.batch_size + 1)).sum :=
  C7_api_calls_floor_plus_one echo_upper_service "rid" 0 1 0 0 one_cell_request (by decide)

/-- Total successful translations across the sheets of a response. -/
def response_successes (resp : TranslationResponse) : Nat :=
  (resp.sheet_results.map (fun s => s.successful_translations)).sum

/-- Total failed translations across the sheets of a response. -/
def response_failures (resp : TranslationResponse) : Nat :=
  (resp.sheet_results.map (fun s => s.failed_translations)).sum

/-- The status execute assigns is the derivation rule applied to the sums of
failures and successes over its sheet results. -/
theorem execute_status_eq (service : TranslationService) (request_id : String)
    (start_time end_time elapsed sheet_time : ℚ) (request : TranslationRequest)
    (hb : 0 < request.batch_settings.batch_size) :
    (execute service request_id start_time end_time elapsed sheet_time request).status =
      derive_status
        (response_failures (execute service request_id start_time end_time elapsed sheet_time request))
        (response_successes (execute service request_id start_time end_time elapsed sheet_time request)) := by
  simp only [execute, response_failures, response_successes]
  rw [if_neg (fun h => absurd h.1 (Nat.pos_iff_ne_zero.mp hb))]

/-- The scenario cells as a whole request with default settings. -/
def scenario_request : TranslationRequest :=
  { file_path := "f.xlsx", sheet_names := [], language_settings := english_japanese,
    batch_settings := {}, content_filters := {}, cells := scenario_cells }

/-- C3: the status derivation rule. For every non-exceptional run of execute
(positive batch size), the response status is FAILED when the total number
of successful translations across all sheets is zero, SUCCESS when there are
zero failures and at least one success, and PARTIAL_SUCCESS otherwise. -/
theorem C3_status_derivation (service : TranslationService) (request_id : String)
    (start_time end_time elapsed sheet_time : ℚ) (request : TranslationRequest)
    (hb : 0 < request.batch_settings.batch_size) :
    (response_successes (execute service request_id start_time end_time elapsed sheet_time request) = 0 →
      (execute service request_id start_time end_time elapsed sheet_time request).status =
        TranslationStatus.failed) ∧
    (response_failures (execute service request_id start_time end_time elapsed sheet_time request) = 0 →
      0 < response_successes (execute service request_id start_time end_time elapsed sheet_time request) →
      (execute service request_id start_time end_time elapsed sheet_time request).status =
        TranslationStatus.success) ∧
    (0 < response_successes (execute service request_id start_time end_time elapsed sheet_time request) →
      0 < response_failures (execute service request_id start_time end_time elapsed sheet_time request) →
      (execute service request_id start_time end_time elapsed sheet_time request).status =
        TranslationStatus.partial_success) := by
  rw [execute_status_eq service request_id start_time end_time elapsed sheet_time request hb]
  unfold derive_status
  refine ⟨fun h0 => ?_, fun hf hs => ?_, fun hs hf => ?_⟩ <;>
    split_ifs <;> first | rfl | omega

/-- C3 witness: the scenario request (default batch size 50) with the
uppercasing provider; all four cells end successful, zero failures, and the
status is SUCCESS as each applicable implication demands. -/
theorem C3_status_derivation_witness :
    (response_successes (execute echo_upper_service "rid" 0 1 0 0 scenario_request) = 0 →
      (execute echo_upper_service "rid" 0 1 0 0 scenario_request).status =
        TranslationStatus.failed) ∧
    (response_failures (execute echo_upper_service "rid" 0 1 0 0 scenario_request) = 0 →
      0 < response_successes (execute echo_upper_service "rid" 0 1 0 0 scenario_request) →
      (execute echo_upper_service "rid" 0 1 0 0 scenario_request).status =
        TranslationStatus.success) ∧
    (0 < response_successes (execute echo_upper_service "rid" 0 1 0 0 scenario_request) →
      0 < response_failures (execute echo_upper_service "rid" 0 1 0 0 scenario_request) →
      (execute echo_upper_service "rid" 0 1 0 0 scenario_request).status =
        TranslationStatus.partial_success) :=
  C3_status_derivation echo_upper_service "rid" 0 1 0 0 scenario_request (by decide)


/-- The retry loop under a provider that fails every remaining attempt:
the original texts come back, every remaining attempt was called, and the
backoff sleeps grow by 2 to the attempt for each attempt but the last. -/
theorem retries_go_all_fail (client : Nat → Except String (List String)) (texts : List String) :
    ∀ (remaining attempt : Nat) (trace : RetryTrace),
      (∀ a, attempt ≤ a → a < attempt + remaining → ∃ e, client a = .error e) →
      (retries_go client false texts attempt remaining trace).1 = texts ∧
      (retries_go client false texts attempt remaining trace).2.calls = trace.calls + remaining ∧
      (retries_go client false texts attempt remaining trace).2.backoff_sleeps =
        trace.backoff_sleeps ++ (List.range' attempt (remaining - 1)).map (fun a => (2 : ℚ) ^ a) := by
  intro remaining
  induction remaining with
  | zero =>
      intro attempt trace _
      simp [retries_go]
  | succ r ih =>
      intro attempt trace h
      obtain ⟨e, he⟩ := h attempt (Nat.le_refl _) (by omega)
      have hnext : ∀ a, attempt + 1 ≤ a → a < attempt + 1 + r → ∃ e, client a = .error e :=
        fun a h1 h2 => h a (by omega) (by omega)
      have key : ∀ tB : RetryTrace, tB.calls = trace.calls + 1 →
          tB.backoff_sleeps = trace.backoff_sleeps ++
            (if 0 < r then [(2 : ℚ) ^ attempt] else []) →
          (retries_go client false texts (attempt + 1) r tB).1 = texts ∧
          (retries_go client false texts (attempt + 1) r tB).2.calls = trace.calls + (r + 1) ∧
          (retries_go client false texts (attempt + 1) r tB).2.backoff_sleeps =
            trace.backoff_sleeps ++ (List.range' attempt (r + 1 - 1)).map (fun a => (2 : ℚ) ^ a) := by
        intro tB hc hbk
        obtain ⟨r1, r2, r3⟩ := ih (attempt + 1) tB hnext
        refine ⟨r1, by rw [r2, hc]; omega, ?_⟩
        rw [r3, hbk]
        rcases Nat.eq_zero_or_pos r with hr | hr
        · subst hr
          simp
        · obtain ⟨s, rfl⟩ : ∃ s, r = s + 1 := ⟨r - 1, by omega⟩
          simp [List.range'_succ, List.append_assoc]
      simp only [retries_go, if_neg Bool.false_ne_true, he]
      exact key _ (by split_ifs <;> rfl) (by split_ifs <;> simp)

/-- C5: the retry policy. For a slice whose provider call raises on every
attempt, _translate_batch_with_retries makes exactly maxRetries provider
calls, sleeps 2 to the attempt seconds between consecutive attempts (the
backoff list is the powers of two at exponents 0 through maxRetries minus 2)
and returns the original texts of the slice; being a total function, it
never raises to its caller. -/
theorem C5_retry_policy (client : Nat → Except String (List String))
    (max_retries : Nat) (texts : List String)
    (hfail : ∀ a, a < max_retries → ∃ e, client a = .error e) :
    (translate_batch_with_retries client max_retries false texts).1 = texts ∧
    (translate_batch_with_retries client max_retries false texts).2.calls = max_retries ∧
    (translate_batch_with_retries client max_retries false texts).2.backoff_sleeps =
      (List.range (max_retries - 1)).map (fun a => (2 : ℚ) ^ a) := by
  obtain ⟨r1, r2, r3⟩ := retries_go_all_fail client texts max_retries 0
    { calls := 0, backoff_sleeps := [], rate_limit_waits := [] }
    (fun a _ h2 => hfail a (by omega))
  refine ⟨r1, ?_, ?_⟩
  · rw [translate_batch_with_retries, r2]
    simp
  · rw [translate_batch_with_retries, r3]
    simp [List.range_eq_range']

/-- C5 witness: a provider failing all three default attempts on a two-text
slice: three calls, sleeps of 1 and 2 seconds, original texts returned. -/
theorem C5_retry_policy_witness :
    (translate_batch_with_retries (fun _ => .error "boom") 3 false ["x", "y"]).1 = ["x", "y"] ∧
    (translate_batch_with_retries (fun _ => .error "boom") 3 false ["x", "y"]).2.calls = 3 ∧
    (translate_batch_with_retries (fun _ => .error "boom") 3 false ["x", "y"]).2.backoff_sleeps =
      (List.range (3 - 1)).map (fun a => (2 : ℚ) ^ a) :=
  C5_retry_policy (fun _ => .error "boom") 3 ["x", "y"] (fun _ _ => ⟨"boom", rfl⟩)

/- ===== Cancellation (claim on process_texts) ===== -/

/-- The uppercasing provider as a batch client (any slice, any attempt). -/
def upper_batch_client : BatchClient := fun _ _ ts => .ok (ts.map pyUpper)

/-- C4 counterexample: texts [a, b] at batch size 1, with cancellation
arriving after slice 0 completed. Slice 0 is stored translated, slice 1
never starts, and its output position holds the empty string — not the
source text b the claim requires. -/
theorem C4_counterexample_unstarted_slot_is_empty :
    process_texts upper_batch_client 3 (fun k => decide (1 ≤ k)) ["a", "b"] 1 =
      .ok (["A", ""], { started_slices := [0], progress_calls := [(1, 2)] }) ∧
    ("" : String) ≠ "b" := by
  refine ⟨rfl, by decide⟩

/-- The retry wrapper returns a list of the same length as its input whenever
the provider's successful answers do (the failure fallback is the input). -/
theorem retries_go_length (client : Nat → Except String (List String)) (cancelled : Bool)
    (texts : List String) :
    ∀ (remaining attempt : Nat) (trace : RetryTrace),
      (∀ a res, client a = .ok res → res.length = texts.length) →
      ((retries_go client cancelled texts attempt remaining trace).1).length = texts.length := by
  intro remaining
  induction remaining with
  | zero =>
      intro attempt trace _
      simp [retries_go]
  | succ r ih =>
      intro attempt trace h
      rw [retries_go]
      split
      · rfl
      · split
        · next res heq => exact h _ res heq
        · exact ih (attempt + 1) _ h

/-- Length form of the previous lemma for the wrapper itself. -/
theorem translate_batch_with_retries_length (client : Nat → Except String (List String))
    (max_retries : Nat) (cancelled : Bool) (texts : List String)
    (h : ∀ a res, client a = .ok res → res.length = texts.length) :
    ((translate_batch_with_retries client max_retries cancelled texts).1).length = texts.length :=
  retries_go_length client cancelled texts max_retries 0 _ h

/-- The concatenated outputs of the slices that ran, slice k first: each
chunk contributes the result of its retry-wrapped provider call. -/
def slices_out (client : BatchClient) (max_retries : Nat) :
    List (List String) → Nat → List String
  | [], _ => []
  | chunk :: rest, k =>
      (translate_batch_with_retries (fun a => client k a chunk) max_retries false chunk).1 ++
      slices_out client max_retries rest (k + 1)

/-- Under the provider length contract, the concatenated slice outputs are as
long as the concatenated slices. -/
theorem slices_out_length (client : BatchClient) (max_retries : Nat)
    (hlen : ∀ j a ts res, client j a ts = .ok res → res.length = ts.length) :
    ∀ (chs : List (List String)) (k : Nat),
      (slices_out client max_retries chs k).length = chs.flatten.length := by
  intro chs
  induction chs with
  | nil => intro k; rfl
  | cons chunk rest ih =>
      intro k
      simp only [slices_out, List.flatten_cons, List.length_append]
      rw [translate_batch_with_retries_length _ _ _ _ (fun a res h => hlen k a chunk res h), ih]

/-- Writes that start at or past the end of the array do nothing. -/
theorem writeSeq_oob : ∀ (vs out : List String) (s : Nat),
    out.length ≤ s → writeSeq out s vs = out := by
  intro vs
  induction vs with
  | nil => intro out s _; rfl
  | cons v vs ih =>
      intro out s h
      rw [writeSeq, List.set_eq_of_length_le h]
      exact ih out (s + 1) (by omega)

/-- Setting the element right at the junction of an append. -/
theorem set_at_junction (pre : List String) (v r : String) (rs : List String) :
    (pre ++ r :: rs).set pre.length v = pre ++ v :: rs := by
  induction pre with
  | nil => rfl
  | cons p ps ih => simp [List.set, ih]

/-- A write sequence starting at the junction of an append only touches the
right part. -/
theorem writeSeq_append : ∀ (vs pre rest : List String),
    writeSeq (pre ++ rest) pre.length vs = pre ++ writeSeq rest 0 vs := by
  intro vs
  induction vs with
  | nil => intro pre rest; rfl
  | cons v vs ih =>
      intro pre rest
      cases rest with
      | nil =>
          rw [writeSeq, writeSeq]
          rw [List.set_eq_of_length_le (by simp)]
          rw [writeSeq_oob vs (pre ++ []) (pre.length + 1) (by simp)]
          rw [List.set_eq_of_length_le (by simp)]
          rw [writeSeq_oob vs [] 1 (by simp)]
      | cons r rs =>
          rw [writeSeq, writeSeq, set_at_junction]
          have h1 : pre ++ v :: rs = (pre ++ [v]) ++ rs := by simp
          have h2 : pre.length + 1 = (pre ++ [v]).length := by simp
          rw [h1, h2, ih (pre ++ [v]) rs]
          have h3 : (r :: rs).set 0 v = [v] ++ rs := rfl
          have h4 : (1 : Nat) = ([v] : List String).length := rfl
          rw [h3, Nat.zero_add, h4, ih [v] rs]
          simp

/-- Writing vs into a fresh array of m empty strings from position 0 leaves
vs followed by the untouched empty tail. -/
theorem writeSeq_fill : ∀ (vs : List String) (m : Nat), vs.length ≤ m →
    writeSeq (List.replicate m "") 0 vs = vs ++ List.replicate (m - vs.length) "" := by
  intro vs
  induction vs with
  | nil => intro m _; simp [writeSeq]
  | cons v vs ih =>
      intro m h
      obtain ⟨m', rfl⟩ : ∃ m', m = m' + 1 := ⟨m - 1, by simp at h; omega⟩
      rw [List.replicate_succ, writeSeq]
      have h0 : (("" :: List.replicate m' "").set 0 v) = [v] ++ List.replicate m' "" := rfl
      have h1 : (1 : Nat) = ([v] : List String).length := rfl
      rw [h0, Nat.zero_add, h1, writeSeq_append vs [v] (List.replicate m' "")]
      rw [ih m' (by simp at h; omega)]
      simp

/-- Combination: writing vs at the junction after done into the fresh tail. -/
theorem writeSeq_prefix_fill (done vs : List String) (m : Nat) (h : vs.length ≤ m) :
    writeSeq (done ++ List.replicate m "") done.length vs =
      done ++ (vs ++ List.replicate (m - vs.length) "") := by
  rw [writeSeq_append, writeSeq_fill vs m h]

/-- A chunk list where every chunk but the last has exactly the batch size. -/
def chunks_regular (b : Nat) : List (List String) → Prop
  | [] => True
  | chunk :: rest => (rest = [] ∨ chunk.length = b) ∧ chunks_regular b rest

/-- chunksOfAux on the empty list is empty whatever the fuel. -/
theorem chunksOfAux_nil (b : Nat) : ∀ fuel, chunksOfAux b fuel ([] : List String) = [] := by
  intro fuel
  cases fuel <;> rfl

/-- With positive batch size and enough fuel, the chunks flatten back to the
input list. -/
theorem chunksOfAux_flatten (b : Nat) (hb : 0 < b) :
    ∀ (fuel : Nat) (xs : List String), xs.length ≤ fuel →
      (chunksOfAux b fuel xs).flatten = xs := by
  intro fuel
  induction fuel with
  | zero =>
      intro xs h
      cases xs with
      | nil => rfl
      | cons x rest => simp at h
  | succ f ih =>
      intro xs h
      cases xs with
      | nil => rfl
      | cons x rest =>
          obtain ⟨b', rfl⟩ : ∃ b', b = b' + 1 := ⟨b - 1, by omega⟩
          rw [chunksOfAux, List.flatten_cons]
          rw [ih ((x :: rest).drop (b' + 1)) (by simp at h ⊢; omega)]
          exact List.take_append_drop _ _

/-- With positive batch size and enough fuel, the chunk list is regular. -/
theorem chunksOfAux_regular (b : Nat) (hb : 0 < b) :
    ∀ (fuel : Nat) (xs : List String), xs.length ≤ fuel →
      chunks_regular b (chunksOfAux b fuel xs) := by
  intro fuel
  induction fuel with
  | zero =>
      intro xs h
      cases xs with
      | nil => trivial
      | cons x rest => simp at h
  | succ f ih =>
      intro xs h
      cases xs with
      | nil => trivial
      | cons x rest =>
          obtain ⟨b', rfl⟩ : ∃ b', b = b' + 1 := ⟨b - 1, by omega⟩
          rw [chunksOfAux]
          refine ⟨?_, ih _ (by simp at h ⊢; omega)⟩
          cases hdrop : (x :: rest).drop (b' + 1) with
          | nil =>
              left
              exact chunksOfAux_nil _ f
          | cons y ys =>
              right
              have hlt : b' + 1 < (x :: rest).length := by
                by_contra hge
                rw [List.drop_eq_nil_of_le (by omega)] at hdrop
                exact List.noConfusion hdrop
              simp only [List.length_cons] at hlt
              simp [List.length_take]
              omega

/-- The flattening and regularity facts for chunksOf itself. -/
theorem chunksOf_flatten (b : Nat) (hb : 0 < b) (xs : List String) :
    (chunksOf b xs).flatten = xs := by
  rw [chunksOf, if_neg (by omega)]
  exact chunksOfAux_flatten b hb xs.length xs (Nat.le_refl _)

theorem chunksOf_regular (b : Nat) (hb : 0 < b) (xs : List String) :
    chunks_regular b (chunksOf b xs) := by
  rw [chunksOf, if_neg (by omega)]
  exact chunksOfAux_regular b hb xs.length xs (Nat.le_refl _)

/-- Flattening a prefix never exceeds flattening the whole list. -/
theorem flatten_take_length_le (l : List (List String)) (d : Nat) :
    (l.take d).flatten.length ≤ l.flatten.length := by
  conv_rhs => rw [← List.take_append_drop d l]
  rw [List.flatten_append, List.length_append]
  omega

/-- The slice loop under a cancellation oracle firing from slice c on, over
any regular chunk list sitting after an already-written prefix done of
length k·b: the slices with index below c run and are stored consecutively
after done, the slices from c on never run and leave their output slots at
the initial empty strings, and exactly the slices below c record their
batch_start in the trace. -/
theorem process_go_spec (client : BatchClient) (mr b c total : Nat)
    (hlen : ∀ j a ts res, client j a ts = .ok res → res.length = ts.length) :
    ∀ (chs : List (List String)) (k : Nat) (done : List String) (tr : ProcessTrace),
      chunks_regular b chs →
      done.length = k * b →
      (process_texts_go client mr (fun j => decide (c ≤ j)) total b chs k (k * b)
          (done ++ List.replicate chs.flatten.length "") tr).1 =
        done ++ slices_out client mr (chs.take (c - k)) k ++
          List.replicate (chs.flatten.length -
            (slices_out client mr (chs.take (c - k)) k).length) "" ∧
      (process_texts_go client mr (fun j => decide (c ≤ j)) total b chs k (k * b)
          (done ++ List.replicate chs.flatten.length "") tr).2.started_slices =
        tr.started_slices ++
          (List.range ((chs.take (c - k)).length)).map (fun j => (k + j) * b) := by
  intro chs
  induction chs with
  | nil =>
      intro k done tr _ _
      constructor
      · simp [process_texts_go, slices_out]
      · simp [process_texts_go]
  | cons chunk rest ih =>
      intro k done tr hreg hdone
      rcases Nat.lt_or_ge k c with hk | hk
      · -- below the cancellation point: slice k runs
        obtain ⟨d, hd⟩ : ∃ d, c - k = d + 1 := ⟨c - k - 1, by omega⟩
        have hd' : c - (k + 1) = d := by omega
        have hres_len : ((translate_batch_with_retries (fun a => client k a chunk)
            mr false chunk).1).length = chunk.length :=
          translate_batch_with_retries_length _ _ _ _ (fun a res h => hlen k a chunk res h)
        have hm : (chunk :: rest).flatten.length = chunk.length + rest.flatten.length := by
          simp
        simp only [process_texts_go, if_neg (show ¬ decide (c ≤ k) = true by simp; omega)]
        have hw : writeSeq (done ++ List.replicate (chunk :: rest).flatten.length "")
            (k * b) (translate_batch_with_retries (fun a => client k a chunk) mr false chunk).1 =
            (done ++ (translate_batch_with_retries (fun a => client k a chunk) mr false chunk).1)
              ++ List.replicate rest.flatten.length "" := by
          rw [← hdone, hm, writeSeq_prefix_fill done _ _ (by omega), hres_len]
          simp [List.append_assoc, Nat.add_sub_cancel_left]
        rw [hw]
        rw [hd, List.take_succ_cons]
        simp only [slices_out]
        cases rest with
        | nil =>
            simp only [process_texts_go]
            constructor
            · simp only [List.take_nil, slices_out, List.flatten_cons, List.flatten_nil]
              simp [hres_len]
            · simp [List.range_succ_eq_map]
        | cons r0 rs =>
            have hchunk_b : chunk.length = b := by
              rcases hreg.1 with habs | hok
              · exact absurd habs (by simp)
              · exact hok
            have hstart : k * b + b = (k + 1) * b := by ring
            have hout : (done ++ (translate_batch_with_retries (fun a => client k a chunk)
                mr false chunk).1) ++ List.replicate (r0 :: rs).flatten.length "" =
                (done ++ (translate_batch_with_retries (fun a => client k a chunk)
                  mr false chunk).1) ++ List.replicate (r0 :: rs).flatten.length "" := rfl
            have hdone' : (done ++ (translate_batch_with_retries (fun a => client k a chunk)
                mr false chunk).1).length = (k + 1) * b := by
              rw [List.length_append, hdone, hres_len, hchunk_b]; ring
            obtain ⟨ih1, ih2⟩ := ih (k + 1)
              (done ++ (translate_batch_with_retries (fun a => client k a chunk) mr false chunk).1)
              { started_slices := tr.started_slices ++ [k * b],
                progress_calls := tr.progress_calls ++ [(k * b + chunk.length, total)] }
              hreg.2 hdone'
            rw [hstart]
            constructor
            · rw [ih1, hd']
              simp only [List.append_assoc, List.flatten_cons, List.length_append]
              congr 2
              congr 1
              rw [slices_out_length client mr hlen, hchunk_b]
              congr 1
              omega
            · rw [ih2, hd']
              simp only [List.length_cons, List.range_succ_eq_map, List.map_cons, List.map_map]
              simp only [Nat.add_zero, List.append_assoc, List.singleton_append]
              have hfun : ((fun j => (k + j) * b) ∘ Nat.succ) = (fun j => (k + 1 + j) * b) := by
                funext j
                simp only [Function.comp_apply, Nat.succ_eq_add_one]
                ring
              rw [hfun]
      · -- at or past the cancellation point: nothing further runs
        have htake : c - k = 0 := by omega
        simp only [process_texts_go, if_pos (show decide (c ≤ k) = true by simp; omega)]
        rw [htake]
        constructor
        · simp [slices_out]
        · simp

/-- C4 as amended: under the boundary cancellation model (the flag is read
before each slice; once set by cancel() it stays set, so the reads are a cut
at some slice index c), a run with positive batch size and a provider
honouring its length contract returns a list of the input length in which
the slices that began before the cancellation point sit translated at their
original indices, exactly those slices report their batch_start (no new
slice begins at or after c), and every output position of a slice that never
started holds the empty string the output array was initialised with — not
the source text the claim expected. cancel() called before the run is
discarded, because process_texts resets the flag on entry. -/
theorem C4_cancellation_amended (client : BatchClient) (max_retries b c : Nat)
    (texts : List String) (hb : 0 < b)
    (hlen : ∀ j a ts res, client j a ts = .ok res → res.length = ts.length) :
    ∃ out trace,
      process_texts client max_retries (fun k => decide (c ≤ k)) texts b = .ok (out, trace) ∧
      out.length = texts.length ∧
      out = slices_out client max_retries ((chunksOf b texts).take c) 0 ++
        List.replicate (texts.length -
          (slices_out client max_retries ((chunksOf b texts).take c) 0).length) "" ∧
      trace.started_slices =
        (List.range (((chunksOf b texts).take c).length)).map (fun k => k * b) := by
  cases texts with
  | nil =>
      refine ⟨[], { started_slices := [], progress_calls := [] }, rfl, rfl, ?_, ?_⟩
      · simp [chunksOf, chunksOfAux, slices_out]
      · simp [chunksOf, chunksOfAux]
  | cons t ts =>
      have hflat : ((chunksOf b (t :: ts)).flatten).length = (t :: ts).length := by
        rw [chunksOf_flatten b hb]
      obtain ⟨g1, g2⟩ := process_go_spec client max_retries b c (t :: ts).length hlen
        (chunksOf b (t :: ts)) 0 [] { started_slices := [], progress_calls := [] }
        (chunksOf_regular b hb (t :: ts)) (by simp)
      rw [Nat.zero_mul, List.nil_append, hflat, Nat.sub_zero] at g1 g2
      set G := process_texts_go client max_retries (fun j => decide (c ≤ j)) (t :: ts).length b
        (chunksOf b (t :: ts)) 0 0 (List.replicate (t :: ts).length "")
        { started_slices := [], progress_calls := [] } with hG
      refine ⟨G.1, G.2, ?_, ?_, ?_, ?_⟩
      · rw [process_texts, if_neg (by simp), if_neg (by omega)]
      · rw [g1]
        have hle : (slices_out client max_retries ((chunksOf b (t :: ts)).take c) 0).length ≤
            (t :: ts).length := by
          rw [slices_out_length client max_retries hlen, ← hflat]
          exact flatten_take_length_le _ _
        simp only [List.nil_append, List.length_append, List.length_replicate]
        omega
      · rw [g1]
        simp
      · rw [g2]
        simp

/-- C4 witness: texts [a, b] at batch size 1 with cancellation from slice 1
on, under the uppercasing provider. -/
theorem C4_cancellation_amended_witness :
    ∃ out trace,
      process_texts upper_batch_client 3 (fun k => decide (1 ≤ k)) ["a", "b"] 1 = .ok (out, trace) ∧
      out.length = (["a", "b"] : List String).length ∧
      out = slices_out upper_batch_client 3 ((chunksOf 1 ["a", "b"]).take 1) 0 ++
        List.replicate ((["a", "b"] : List String).length -
          (slices_out upper_batch_client 3 ((chunksOf 1 ["a", "b"]).take 1) 0).length) "" ∧
      trace.started_slices =
        (List.range (((chunksOf 1 ["a", "b"]).take 1).length)).map (fun k => k * 1) :=
  C4_cancellation_amended upper_batch_client 3 1 1 ["a", "b"] (by decide)
    (fun _ _ ts res h => by injection h with h2; subst h2; simp [upper_batch_client])
